import Mathlib

/-!
Shallow embedding of `setup_real_ai.py`, a single-file environment-provisioning
script.  External effects are modelled by oracles passed as arguments:

* `exec : String → CmdResult` gives the exit status and captured stderr that the
  shell reports for each command string (`subprocess.run(..., shell=True)`);
* `fileExists` / `download` model the filesystem probe and the network fetch made
  by the generated model-download helper script;
* `subEffect : List String → List String` models what a helper subprocess does to
  the working-directory filesystem (viewed as a list of file names);
* the driver's step bodies are abstracted as `stepRun : String → Except String Unit`
  (normal return, or a raised exception carrying a message).

Each modelled function returns the observable trace the specification speaks
about: the command strings passed to the command runner (in order), the download
events, the emitted log lines, the resulting filesystem, the driver's event
trace and the process exit status.
-/

/-- Result of executing one shell command: exit status and captured stderr. -/
structure CmdResult where
  exitCode : Nat
  stderr : String
deriving DecidableEq

/-- Model of `run_command(command, description)`: executes `command` through the
shell oracle `exec`.  On exit status `0` it logs success and returns `true`;
on any non-zero status it logs the captured stderr text and returns `false`.
The only exception the subprocess call raises with `shell=True` is
`CalledProcessError`, which is caught, so the model is a total function:
no exception propagates to the caller. -/
def run_command (exec : String → CmdResult) (command description : String) :
    List String × Bool :=
  let res := exec command
  if res.exitCode = 0 then
    (["📦 " ++ description, "✅ " ++ description ++ " - Success"], true)
  else
    (["📦 " ++ description, "❌ " ++ description ++ " - Failed: " ++ res.stderr],
      false)

/-- Model of `check_python_version()`: reads the interpreter version triple and
rejects it when `major < 3 or (major == 3 and minor < 8)`.  Returns the log
lines and the boolean result. -/
def check_python_version (major minor micro : Nat) : List String × Bool :=
  if major < 3 ∨ (major = 3 ∧ minor < 8) then
    (["❌ Python 3.8+ required."], false)
  else
    (["✅ Python " ++ toString major ++ "." ++ toString minor ++ "." ++
        toString micro ++ " is compatible"], true)

/-- The command string `f"pip install {package}"` built by the installer loops. -/
def pip_install_cmd (package : String) : String := "pip install " ++ package

/-- Outcome of the `try: import torch ... torch.cuda.is_available()` probe in
`install_pytorch`: whether the import succeeds, and whether CUDA is reported
available when it does. -/
structure TorchProbe where
  importOk : Bool
  cudaAvailable : Bool
deriving DecidableEq

/-- The OS-conditional PyTorch install command chosen by `install_pytorch`. -/
def pytorch_install_cmd (isWindows : Bool) : String :=
  if isWindows then
    "pip install torch torchvision torchaudio --index-url https://download.pytorch.org/whl/cu118"
  else
    "pip install torch torchvision torchaudio"

/-- Model of `install_pytorch()`: if importing torch succeeds AND CUDA is
available it returns `True` without running any command; otherwise (import
failure, or import success with CUDA unavailable) it passes the OS-conditional
install command to the command runner.  Returns the list of commands passed to
the runner and the boolean result. -/
def install_pytorch (probe : TorchProbe) (isWindows : Bool)
    (exec : String → CmdResult) : List String × Bool :=
  if probe.importOk && probe.cudaAvailable then
    ([], true)
  else
    let cmd := pytorch_install_cmd isWindows
    ([cmd], (run_command exec cmd "Installing PyTorch").2)

/-- The package list of `install_midas_dependencies`. -/
def midas_packages : List String :=
  ["timm", "einops", "scipy", "matplotlib", "pillow", "transforms3d", "open3d"]

/-- The package list of `install_additional_packages`. -/
def additional_packages : List String :=
  ["ffmpeg-python", "imageio-ffmpeg", "scikit-image", "scikit-learn", "trimesh",
    "pymeshlab"]

/-- The basic-dependency package list of `install_gaussian_splatting_deps`. -/
def gaussian_basic_deps : List String :=
  ["plyfile", "tqdm", "numpy", "scipy", "matplotlib", "imageio", "configargparse"]

/-- The loop of `install_midas_dependencies`: installs packages in order but
RETURNS `False` as soon as one `run_command` fails (`if not run_command(...):
return False`), so later packages are not attempted.  Returns the commands
passed to the runner and the boolean result. -/
def midas_install_loop (exec : String → CmdResult) :
    List String → List String × Bool
  | [] => ([], true)
  | package :: rest =>
    let cmd := pip_install_cmd package
    if (run_command exec cmd ("Installing " ++ package)).2 then
      let r := midas_install_loop exec rest
      (cmd :: r.1, r.2)
    else
      ([cmd], false)

/-- Model of `install_midas_dependencies()`. -/
def install_midas_dependencies (exec : String → CmdResult) :
    List String × Bool :=
  midas_install_loop exec midas_packages

/-- A `for package in packages: run_command(...)` loop that ignores each
result: every package's install command is passed to the runner.  Used by
`install_additional_packages` and the basic-deps loop of
`install_gaussian_splatting_deps`.  Returns the commands passed to the runner. -/
def pip_install_all (exec : String → CmdResult) : List String → List String
  | [] => []
  | package :: rest =>
    let cmd := pip_install_cmd package
    let _ := run_command exec cmd ("Installing " ++ package)
    cmd :: pip_install_all exec rest

/-- Model of `install_additional_packages()`: installs every package in order,
ignoring failures; returns the commands passed to the runner. -/
def install_additional_packages (exec : String → CmdResult) : List String :=
  pip_install_all exec additional_packages

/-- The OS-conditional COLMAP install command of
`install_gaussian_splatting_deps` (`platform.system().lower()`):
Linux uses apt, macOS (darwin) uses brew, anything else is skipped. -/
def colmap_cmds (system : String) : List String :=
  if system = "linux" then
    ["sudo apt-get update && sudo apt-get install -y colmap"]
  else if system = "darwin" then
    ["brew install colmap"]
  else
    []

/-- Model of `install_gaussian_splatting_deps()`: installs each basic dependency
ignoring failures, then conditionally attempts the COLMAP install, and returns
`True` unconditionally.  Returns the commands passed to the runner and the
boolean result. -/
def install_gaussian_splatting_deps (system : String)
    (exec : String → CmdResult) : List String × Bool :=
  (pip_install_all exec gaussian_basic_deps ++ colmap_cmds system, true)

/-- Python's `str.lower()` on the character list of the string. -/
def py_lower (s : String) : String := ⟨s.data.map Char.toLower⟩

/-- Python's `str.strip()`: remove leading and trailing whitespace. -/
def py_strip (s : String) : String :=
  ⟨((s.data.dropWhile Char.isWhitespace).reverse.dropWhile
      Char.isWhitespace).reverse⟩

/-- The fixed conda environment name used by `create_conda_env`. -/
def conda_env_name : String := "insane_fusion"

/-- The environment-creation command of `create_conda_env`. -/
def conda_create_cmd : String :=
  "conda create -n " ++ conda_env_name ++ " python=3.9 -y"

/-- The environment-activation command of `create_conda_env`. -/
def conda_activate_cmd : String :=
  "conda activate " ++ conda_env_name

/-- Model of `create_conda_env()`: reads the prompt response, normalizes it with
`.lower().strip()`, and on exactly `"y"` passes the creation and activation
commands to the command runner; on anything else it passes none.  Returns the
commands passed to the runner. -/
def create_conda_env (response : String) : List String :=
  if py_strip (py_lower response) = "y" then
    [conda_create_cmd, conda_activate_cmd]
  else
    []

/-- The model manifest hardcoded in the generated download helper script:
local file name paired with its source URL. -/
def midas_models : List (String × String) :=
  [("midas_v21_small.pt",
    "https://github.com/intel-isl/MiDaS/releases/download/v2_1/midas_v21_small-70d51b78.pt"),
   ("midas_v21.pt",
    "https://github.com/intel-isl/MiDaS/releases/download/v2_1/midas_v21-f6b98070.pt")]

/-- The target path `models_dir / model_name` of a manifest entry. -/
def model_path (name : String) : String := "models/" ++ name

/-- One observable event of the download helper script. -/
inductive FetchEvent where
  | skipped (name : String)
  | attempt (name : String) (url : String)
  | downloaded (name : String)
  | failed (name : String) (msg : String)
deriving DecidableEq

/-- The manifest loop of the generated `download_midas_models` helper: an entry
whose target path already exists is skipped (`continue`); otherwise exactly one
download attempt is made, and a download exception is caught and logged, after
which the loop continues with the next entry. -/
def download_loop (fileExists : String → Bool)
    (download : String → Except String Unit) :
    List (String × String) → List FetchEvent
  | [] => []
  | (name, url) :: rest =>
    if fileExists (model_path name) then
      FetchEvent.skipped name :: download_loop fileExists download rest
    else
      FetchEvent.attempt name url ::
        (match download url with
         | Except.ok _ => FetchEvent.downloaded name
         | Except.error e => FetchEvent.failed name e) ::
        download_loop fileExists download rest

/-- Model of the `download_midas_models()` function written into the helper
script: runs the manifest loop on the hardcoded manifest. -/
def download_midas_models (fileExists : String → Bool)
    (download : String → Except String Unit) : List FetchEvent :=
  download_loop fileExists download midas_models

/-- Number of download attempts recorded for the file `n`. -/
def attemptsFor (n : String) (evs : List FetchEvent) : Nat :=
  evs.countP (fun e =>
    match e with
    | FetchEvent.attempt m _ => m == n
    | _ => false)

/-- `os.path.exists` over the working directory modelled as a list of names. -/
def fs_exists (f : String) : List String → Bool
  | [] => false
  | g :: rest => if g = f then true else fs_exists f rest

/-- `open(f, "w")` creates the file (set semantics: ensure presence). -/
def fs_write (f : String) (fs : List String) : List String :=
  if fs_exists f fs then fs else f :: fs

/-- `os.remove(f)` deletes the file. -/
def fs_remove (f : String) (fs : List String) : List String :=
  fs.filter (fun g => g != f)

/-- The transient helper file written by `setup_midas_models`. -/
def download_helper_file : String := "download_midas.py"

/-- The transient helper file written by `verify_installation`. -/
def test_helper_file : String := "test_installation.py"

/-- Filesystem effect of `setup_midas_models()`: writes the download helper
script, runs it as a subprocess (arbitrary effect `subEffect` on the
filesystem, e.g. adding model files), then deletes the helper if it still
exists. -/
def setup_midas_models_fs (subEffect : List String → List String)
    (fs : List String) : List String :=
  let fs1 := fs_write download_helper_file fs
  let fs2 := subEffect fs1
  if fs_exists download_helper_file fs2 then
    fs_remove download_helper_file fs2
  else
    fs2

/-- Filesystem effect of `verify_installation()`: writes the test helper
script, runs it as a subprocess, then deletes the helper if it still exists. -/
def verify_installation_fs (subEffect : List String → List String)
    (fs : List String) : List String :=
  let fs1 := fs_write test_helper_file fs
  let fs2 := subEffect fs1
  if fs_exists test_helper_file fs2 then
    fs_remove test_helper_file fs2
  else
    fs2

/-- One observable event of the driver `main()`. -/
inductive MainEvent where
  | versionFail
  | versionOk
  | command (cmd : String)
  | stepAttempt (description : String)
  | stepException (description : String) (msg : String)
  | closingBanner
deriving DecidableEq

/-- The descriptions of the driver's fixed seven-step sequence, in order. -/
def setup_steps : List String :=
  ["Installing PyTorch", "Installing OpenCV", "Installing MiDaS dependencies",
    "Installing Gaussian Splatting dependencies", "Installing additional packages",
    "Setting up MiDaS models", "Verifying installation"]

/-- The driver's step loop: each step is attempted inside `try/except
Exception`, so a raised exception is reported and the loop continues with the
next step unconditionally. -/
def step_loop (stepRun : String → Except String Unit) :
    List String → List MainEvent
  | [] => []
  | description :: rest =>
    MainEvent.stepAttempt description ::
      (match stepRun description with
       | Except.ok _ => step_loop stepRun rest
       | Except.error e =>
         MainEvent.stepException description e :: step_loop stepRun rest)

/-- Model of `main()`: checks the interpreter version and exits with status 1
on failure; otherwise runs the optional conda-environment prompt, attempts the
seven steps with per-step exception isolation, prints the fixed closing banner
once, and the process ends with exit status 0.  Returns the event trace and the
process exit status. -/
def main_run (major minor micro : Nat) (condaResponse : String)
    (stepRun : String → Except String Unit) : List MainEvent × Nat :=
  if (check_python_version major minor micro).2 then
    (MainEvent.versionOk ::
      ((create_conda_env condaResponse).map MainEvent.command ++
        step_loop stepRun setup_steps ++ [MainEvent.closingBanner]), 0)
  else
    ([MainEvent.versionFail], 1)

/-- The step description recorded by a `stepAttempt` event, if any. -/
def attempt_name : MainEvent → Option String
  | MainEvent.stepAttempt d => some d
  | _ => none

/-- Whether an event is the fixed closing banner. -/
def is_banner : MainEvent → Bool
  | MainEvent.closingBanner => true
  | _ => false

/-! ### Helper lemmas -/

theorem run_command_success_iff (exec : String → CmdResult)
    (command description : String) :
    (run_command exec command description).2 = true ↔
      (exec command).exitCode = 0 := by
  simp only [run_command]
  split <;> simp_all

theorem pip_install_all_eq_map (exec : String → CmdResult) (ps : List String) :
    pip_install_all exec ps = ps.map pip_install_cmd := by
  induction ps with
  | nil => rfl
  | cons p rest ih => simp [pip_install_all, ih]

theorem midas_loop_take (exec : String → CmdResult) (ps : List String) :
    ∃ n, (midas_install_loop exec ps).1 = (ps.map pip_install_cmd).take n := by
  induction ps with
  | nil => exact ⟨0, rfl⟩
  | cons p rest ih =>
    simp only [midas_install_loop, List.map_cons]
    split
    · obtain ⟨n, hn⟩ := ih
      exact ⟨n + 1, by simpa [List.take_succ_cons] using hn⟩
    · exact ⟨1, by simp⟩

theorem midas_loop_all_ok (exec : String → CmdResult) (ps : List String)
    (h : ∀ p ∈ ps, (exec (pip_install_cmd p)).exitCode = 0) :
    midas_install_loop exec ps = (ps.map pip_install_cmd, true) := by
  induction ps with
  | nil => rfl
  | cons p rest ih =>
    have hp : (run_command exec (pip_install_cmd p) ("Installing " ++ p)).2 = true :=
      (run_command_success_iff exec (pip_install_cmd p) ("Installing " ++ p)).mpr
        (h p (by simp))
    simp [midas_install_loop, hp, ih (fun q hq => h q (by simp [hq]))]

theorem step_loop_attempts (stepRun : String → Except String Unit)
    (ds : List String) :
    (step_loop stepRun ds).filterMap attempt_name = ds := by
  induction ds with
  | nil => rfl
  | cons d rest ih =>
    simp only [step_loop]
    cases stepRun d <;> simp [attempt_name, ih]

theorem step_loop_no_banner (stepRun : String → Except String Unit)
    (ds : List String) :
    (step_loop stepRun ds).countP is_banner = 0 := by
  induction ds with
  | nil => rfl
  | cons d rest ih =>
    simp only [step_loop]
    cases stepRun d <;> simp [is_banner, List.countP_cons, ih]

theorem command_events_no_attempts (cmds : List String) :
    (cmds.map MainEvent.command).filterMap attempt_name = [] := by
  induction cmds with
  | nil => rfl
  | cons c rest ih => simp [attempt_name, ih]

theorem command_events_no_banner (cmds : List String) :
    (cmds.map MainEvent.command).countP is_banner = 0 := by
  induction cmds with
  | nil => rfl
  | cons c rest ih => simp [is_banner, List.countP_cons, ih]

theorem fs_exists_remove (f : String) (l : List String) :
    fs_exists f (fs_remove f l) = false := by
  induction l with
  | nil => rfl
  | cons g rest ih =>
    by_cases h : g = f
    · simpa [fs_remove, List.filter_cons, h] using ih
    · simpa [fs_remove, List.filter_cons, fs_exists, h] using ih

/-! ### Claim theorems -/

/-- C1 counterexample: the claim fails on `install_midas_dependencies`.  With a
runner for which every command fails, only the first package's install command
(`pip install timm`) is passed to the runner; the remaining six packages are
never attempted, because the loop returns `False` on the first failure. -/
theorem C1_counterexample :
    ¬ ((install_midas_dependencies
          (fun _ => { exitCode := 1, stderr := "No matching distribution" })).1
        = midas_packages.map pip_install_cmd) := by
  decide

/-- C1 (amended): `install_additional_packages` and the basic-deps loop of
`install_gaussian_splatting_deps` pass each package's install command to the
runner exactly once, in listed order, regardless of failures; but
`install_midas_dependencies` stops at the first failed package: the commands it
passes are always an initial segment of the listed order, and only when every
install succeeds is the whole list passed. -/
theorem C1_installer_command_order (exec : String → CmdResult) (system : String) :
    install_additional_packages exec = additional_packages.map pip_install_cmd ∧
    (install_gaussian_splatting_deps system exec).1
      = gaussian_basic_deps.map pip_install_cmd ++ colmap_cmds system ∧
    (∃ n, (install_midas_dependencies exec).1
      = (midas_packages.map pip_install_cmd).take n) ∧
    ((∀ p ∈ midas_packages, (exec (pip_install_cmd p)).exitCode = 0) →
      (install_midas_dependencies exec).1 = midas_packages.map pip_install_cmd) := by
  refine ⟨pip_install_all_eq_map exec additional_packages, ?_,
    midas_loop_take exec midas_packages, fun h => ?_⟩
  · simp [install_gaussian_splatting_deps, pip_install_all_eq_map]
  · simp [install_midas_dependencies, midas_loop_all_ok exec midas_packages h]

/-- C1 witness: with a runner for which every command succeeds, the depth-model
dependency step passes all seven listed commands, in order. -/
theorem C1_witness :
    (install_midas_dependencies (fun _ => { exitCode := 0, stderr := "" })).1
      = midas_packages.map pip_install_cmd :=
  (C1_installer_command_order (fun _ => { exitCode := 0, stderr := "" })
      "linux").2.2.2 (fun _ _ => rfl)

/-- C2 counterexample: with torch importable but CUDA unavailable, the import
probe succeeds, yet `install_pytorch` still passes an install command to the
command runner — refuting "install command issued if and only if the import
probe fails". -/
theorem C2_counterexample :
    (install_pytorch { importOk := true, cudaAvailable := false } false
        (fun _ => { exitCode := 0, stderr := "" })).1 ≠ [] := by
  decide

/-- C2 (amended): `install_pytorch` short-circuits (no command passed to the
runner, returns success) exactly when the import succeeds AND CUDA is reported
available; in every other case — import failure, or import success with CUDA
unavailable — it passes exactly the one OS-conditional install command to the
runner. -/
theorem C2_short_circuit (probe : TorchProbe) (isWindows : Bool)
    (exec : String → CmdResult) :
    (((install_pytorch probe isWindows exec).1 = []) ↔
        (probe.importOk && probe.cudaAvailable) = true) ∧
    ((probe.importOk && probe.cudaAvailable) = true →
      install_pytorch probe isWindows exec = ([], true)) ∧
    ((probe.importOk && probe.cudaAvailable) = false →
      (install_pytorch probe isWindows exec).1 = [pytorch_install_cmd isWindows]) := by
  simp only [install_pytorch]
  split <;> simp_all

/-- C2 witness: with torch importable and CUDA available, no command is passed
to the runner and the step reports success. -/
theorem C2_witness :
    install_pytorch { importOk := true, cudaAvailable := true } false
        (fun _ => { exitCode := 1, stderr := "offline" }) = ([], true) :=
  (C2_short_circuit { importOk := true, cudaAvailable := true } false
      (fun _ => { exitCode := 1, stderr := "offline" })).2.1 rfl

/-- C5: the command runner returns `true` exactly when the executed command's
exit status is zero, and on any non-zero status it logs the captured stderr
text and returns `false`.  (It is a total function: CalledProcessError is
caught inside, so no exception reaches the caller.) -/
theorem C5_run_command_contract (exec : String → CmdResult)
    (command description : String) :
    ((run_command exec command description).2 = true ↔
        (exec command).exitCode = 0) ∧
    ((exec command).exitCode ≠ 0 →
      ("❌ " ++ description ++ " - Failed: " ++ (exec command).stderr)
        ∈ (run_command exec command description).1) := by
  refine ⟨run_command_success_iff exec command description, fun h => ?_⟩
  simp [run_command, h]

/-- C5 witness: a command exiting with status 1 and stderr "not found" yields a
logged failure line containing "not found" and the runner returns `false`. -/
theorem C5_witness :
    ("❌ " ++ "pip" ++ " - Failed: " ++ "not found")
      ∈ (run_command (fun _ => { exitCode := 1, stderr := "not found" })
          "pip install x" "pip").1 :=
  (C5_run_command_contract (fun _ => { exitCode := 1, stderr := "not found" })
      "pip install x" "pip").2 (by decide)

/-- C8: answering "n" to the environment-creation prompt passes zero
environment-creation or activation commands to the command runner. -/
theorem C8_no_answer_no_commands : create_conda_env "n" = [] := by
  decide

/-- C10: the prompt response is normalized by `.lower().strip()`; the creation
and activation commands are passed to the runner exactly when the normalized
response equals "y" (in particular for "Y" and " y "), and every other
response passes no commands. -/
theorem C10_prompt_lower_strip (response : String) :
    (py_strip (py_lower response) = "y" →
      create_conda_env response = [conda_create_cmd, conda_activate_cmd]) ∧
    (py_strip (py_lower response) ≠ "y" → create_conda_env response = []) ∧
    create_conda_env "Y" = [conda_create_cmd, conda_activate_cmd] ∧
    create_conda_env " y " = [conda_create_cmd, conda_activate_cmd] := by
  refine ⟨fun h => ?_, fun h => ?_, by decide, by decide⟩
  · simp [create_conda_env, h]
  · simp [create_conda_env, h]

/-- C10 witness: the response "YES" normalizes to "yes", not "y", so no
commands are issued. -/
theorem C10_witness : create_conda_env "YES" = [] :=
  (C10_prompt_lower_strip "YES").2.1 (by decide)

/-- C3: for every step-body behavior (normal return or raised exception), the
driver's event trace is some sequence followed by the closing banner, where
that sequence contains exactly the seven step attempts of the fixed sequence,
in order, and no banner — so a failure or exception in step i never prevents
step i+1 from being attempted, and the fixed closing banner appears exactly
once, after all steps have been attempted. -/
theorem C3_steps_isolated_banner_once (major minor micro : Nat)
    (condaResponse : String) (stepRun : String → Except String Unit)
    (h : (check_python_version major minor micro).2 = true) :
    ∃ pre, (main_run major minor micro condaResponse stepRun).1
        = pre ++ [MainEvent.closingBanner] ∧
      pre.filterMap attempt_name = setup_steps ∧
      pre.countP is_banner = 0 := by
  refine ⟨MainEvent.versionOk ::
      ((create_conda_env condaResponse).map MainEvent.command ++
        step_loop stepRun setup_steps), ?_, ?_, ?_⟩
  · simp [main_run, h]
  · simp [attempt_name, List.filterMap_append, command_events_no_attempts,
      step_loop_attempts]
  · simp [is_banner, List.countP_cons, List.countP_append,
      command_events_no_banner, step_loop_no_banner]

/-- C3 witness: on a compatible interpreter, even when every step raises an
exception, all seven steps are attempted in order and the closing banner
appears exactly once, at the end. -/
theorem C3_witness :
    ∃ pre, (main_run 3 8 0 "n" (fun _ => Except.error "boom")).1
        = pre ++ [MainEvent.closingBanner] ∧
      pre.filterMap attempt_name = setup_steps ∧
      pre.countP is_banner = 0 :=
  C3_steps_isolated_banner_once 3 8 0 "n" (fun _ => Except.error "boom")
    (by decide)

/-- C4: the preflight check fails, and the process halts with exit status 1,
exactly for version triples below (3, 8) — major < 3, or major = 3 with
minor < 8; for every triple of 3.8 or above it reports success and the process
continues past the check (exit status 0, trace proceeds beyond the check). -/
theorem C4_version_gate (major minor micro : Nat) (condaResponse : String)
    (stepRun : String → Except String Unit) :
    ((major < 3 ∨ (major = 3 ∧ minor < 8)) →
      (check_python_version major minor micro).2 = false ∧
      main_run major minor micro condaResponse stepRun
        = ([MainEvent.versionFail], 1)) ∧
    (((major = 3 ∧ 8 ≤ minor) ∨ 3 < major) →
      (check_python_version major minor micro).2 = true ∧
      (main_run major minor micro condaResponse stepRun).2 = 0 ∧
      MainEvent.versionOk ∈ (main_run major minor micro condaResponse stepRun).1) := by
  constructor
  · intro h
    have hc : (check_python_version major minor micro).2 = false := by
      simp [check_python_version, h]
    exact ⟨hc, by simp [main_run, hc]⟩
  · intro h
    have hcond : ¬ (major < 3 ∨ (major = 3 ∧ minor < 8)) := by omega
    have hc : (check_python_version major minor micro).2 = true := by
      simp [check_python_version, hcond]
    exact ⟨hc, by simp [main_run, hc], by simp [main_run, hc]⟩

/-- C4 witness: version 2.7.18 is rejected with exit status 1; version 3.8.0
passes the check and the run ends with exit status 0. -/
theorem C4_witness :
    (check_python_version 2 7 18).2 = false ∧
    (main_run 2 7 18 "n" (fun _ => Except.ok ())).2 = 1 ∧
    (check_python_version 3 8 0).2 = true ∧
    (main_run 3 8 0 "n" (fun _ => Except.ok ())).2 = 0 := by
  have h1 := (C4_version_gate 2 7 18 "n" (fun _ => Except.ok ())).1 (by omega)
  have h2 := (C4_version_gate 3 8 0 "n" (fun _ => Except.ok ())).2 (by omega)
  exact ⟨h1.1, by rw [h1.2], h2.1, h2.2.1⟩

/-- C6: for every manifest entry, if the target file already exists in the
models directory no download attempt is made for it (a "skipped" event is
recorded instead); if it is absent, exactly one download attempt is made —
whatever the filesystem says about other entries and whatever the outcome
(success or failure) of any download, so one entry's failed download never
prevents the next entry's attempt. -/
theorem C6_manifest_idempotent_fetch (fileExists : String → Bool)
    (download : String → Except String Unit) :
    ∀ e ∈ midas_models,
      (fileExists (model_path e.1) = true →
        attemptsFor e.1 (download_midas_models fileExists download) = 0 ∧
        FetchEvent.skipped e.1 ∈ download_midas_models fileExists download) ∧
      (fileExists (model_path e.1) = false →
        attemptsFor e.1 (download_midas_models fileExists download) = 1) := by
  intro e he
  fin_cases he <;>
    refine ⟨fun h1 => ?_, fun h1 => ?_⟩ <;>
      cases h2 : fileExists (model_path "midas_v21_small.pt") <;>
      cases h3 : fileExists (model_path "midas_v21.pt") <;>
      cases hd1 : download
        "https://github.com/intel-isl/MiDaS/releases/download/v2_1/midas_v21_small-70d51b78.pt" <;>
      cases hd2 : download
        "https://github.com/intel-isl/MiDaS/releases/download/v2_1/midas_v21-f6b98070.pt" <;>
      simp_all [download_midas_models, download_loop, midas_models, attemptsFor,
        List.countP_cons]

/-- C6 witness: with `midas_v21_small.pt` already present and `midas_v21.pt`
absent, and every download failing, the small model gets zero download
attempts and the other entry still gets exactly one. -/
theorem C6_witness :
    attemptsFor "midas_v21_small.pt"
        (download_midas_models (fun p => p == model_path "midas_v21_small.pt")
          (fun _ => Except.error "network down")) = 0 ∧
    attemptsFor "midas_v21.pt"
        (download_midas_models (fun p => p == model_path "midas_v21_small.pt")
          (fun _ => Except.error "network down")) = 1 := by
  constructor
  · exact ((C6_manifest_idempotent_fetch
        (fun p => p == model_path "midas_v21_small.pt")
        (fun _ => Except.error "network down")
        ("midas_v21_small.pt",
          "https://github.com/intel-isl/MiDaS/releases/download/v2_1/midas_v21_small-70d51b78.pt")
        (by decide)).1 (by decide)).1
  · exact (C6_manifest_idempotent_fetch
        (fun p => p == model_path "midas_v21_small.pt")
        (fun _ => Except.error "network down")
        ("midas_v21.pt",
          "https://github.com/intel-isl/MiDaS/releases/download/v2_1/midas_v21-f6b98070.pt")
        (by decide)).2 (by decide)

/-- C7: whatever the step outcomes, the run ends with exit status 0 exactly
when the preflight version check passes (so step failures never change the
exit status), and the exit status is the non-zero 1 exactly when the preflight
check fails — the only early non-zero exit. -/
theorem C7_exit_codes (major minor micro : Nat) (condaResponse : String)
    (stepRun : String → Except String Unit) :
    ((main_run major minor micro condaResponse stepRun).2 = 0 ↔
      (check_python_version major minor micro).2 = true) ∧
    ((main_run major minor micro condaResponse stepRun).2 = 1 ↔
      (check_python_version major minor micro).2 = false) := by
  simp only [main_run]
  split <;> simp_all

/-- C7 witness: on a compatible interpreter, even when every step raises an
exception, the process exit status is 0. -/
theorem C7_witness :
    (main_run 3 9 1 "y" (fun d => Except.error ("step failed: " ++ d))).2 = 0 :=
  (C7_exit_codes 3 9 1 "y" (fun d => Except.error ("step failed: " ++ d))).1.mpr
    (by decide)

/-- C9: whatever the helper subprocess does to the filesystem and whatever the
starting filesystem, after the model-fetch step the download helper file does
not exist, and after the verification step the test helper file does not
exist: each transient helper script is deleted before its creating step
returns. -/
theorem C9_helpers_deleted (subEffect1 subEffect2 : List String → List String)
    (fs1 fs2 : List String) :
    fs_exists download_helper_file (setup_midas_models_fs subEffect1 fs1) = false ∧
    fs_exists test_helper_file (verify_installation_fs subEffect2 fs2) = false := by
  constructor
  · simp only [setup_midas_models_fs]
    split
    · exact fs_exists_remove download_helper_file _
    · simp_all
  · simp only [verify_installation_fs]
    split
    · exact fs_exists_remove test_helper_file _
    · simp_all
